import Mathlib

/-!
Verification of the ingestion pipeline of the balanzia repository
(src/backend/server.js) against its natural-language specification.

The upload endpoint (server.js, lines 143-196) parses a CSV file with
PapaParse (header mode, dynamicTyping), then normalizes, hashes,
dedup-filters against storage and bulk-inserts.  We embed the post-parse
pipeline: its input is the list of parsed rows (JavaScript values as
produced by dynamicTyping), its collaborator is the storage hash set and
the success/failure of the single bulk insert, and its output is the HTTP
response (status code and message).

JavaScript numbers are modelled as exact rationals (an `Option Rat`, with
`none` standing for NaN).  All concrete values appearing in the claims are
short decimal fractions, for which double rounding is exact, so the
rational model agrees with the JavaScript semantics on every evaluation
performed here.  Non-finite values other than NaN (Infinity) do not arise
from the inputs considered and are outside the model.
-/

/-- A JavaScript value as it appears in a parsed row or in the objects the
server builds: a string, a number (`num none` is NaN), or `undefined`
(a missing field / missing object key). -/
inductive JsVal where
  | str : String → JsVal
  | num : Option Rat → JsVal
  | undef : JsVal
deriving DecidableEq, Repr

/-- JavaScript truthiness: `undefined`, the empty string, `0` and `NaN`
are falsy; every other string or number is truthy. -/
def jsTruthy : JsVal → Bool
  | JsVal.str s => s ≠ ""
  | JsVal.num none => false
  | JsVal.num (some q) => q ≠ 0
  | JsVal.undef => false

/-- The JavaScript expression `a || b`: the left operand if truthy,
otherwise the right operand. -/
def jsOr (a b : JsVal) : JsVal := if jsTruthy a then a else b

/-- Digits of a numeral, most significant first, folded into a natural. -/
def digitsToNat (ds : List Char) : Nat :=
  ds.foldl (fun n c => n * 10 + (c.toNat - 48)) 0

/-- Whitespace skipped by parseFloat before the numeral. -/
def isJsWs (c : Char) : Bool :=
  c = ' ' || c = '\t' || c = '\n' || c = '\r'

/-- Model of the JavaScript builtin parseFloat on a string: skip leading
whitespace, read an optional sign, integer digits, an optional fraction
and an optional exponent, taking the longest valid prefix; if no digit is
read the result is NaN (`none`).  The literal Infinity is outside the
model (it does not arise from the inputs considered). -/
def parseFloatStr (s : String) : Option Rat :=
  let cs := s.data.dropWhile isJsWs
  let signAndRest : Int × List Char :=
    match cs with
    | '-' :: r => (-1, r)
    | '+' :: r => (1, r)
    | r => (1, r)
  let sign := signAndRest.1
  let cs1 := signAndRest.2
  let ip := cs1.takeWhile Char.isDigit
  let cs2 := cs1.drop ip.length
  let fpAndRest : List Char × List Char :=
    match cs2 with
    | '.' :: r => (r.takeWhile Char.isDigit, r.dropWhile Char.isDigit)
    | r => ([], r)
  let fp := fpAndRest.1
  let cs3 := fpAndRest.2
  if ip.isEmpty && fp.isEmpty then none
  else
    let expo : Int :=
      match cs3 with
      | 'e' :: r | 'E' :: r =>
        match r with
        | '-' :: r2 =>
          let ds := r2.takeWhile Char.isDigit
          if ds.isEmpty then 0 else -(digitsToNat ds : Int)
        | '+' :: r2 =>
          let ds := r2.takeWhile Char.isDigit
          if ds.isEmpty then 0 else (digitsToNat ds : Int)
        | r2 =>
          let ds := r2.takeWhile Char.isDigit
          if ds.isEmpty then 0 else (digitsToNat ds : Int)
      | _ => 0
    some (mkRat
      (sign * ((digitsToNat ip * 10 ^ fp.length + digitsToNat fp : Nat) : Int) * 10 ^ expo.toNat)
      (10 ^ fp.length * 10 ^ (-expo).toNat))

/-- Fraction digits of num/den (with num < den), produced one decimal at a
time; the fuel bounds the expansion (every value reaching this function is
a terminating decimal, so the fuel is never exhausted on real inputs). -/
def fracDigitsAux : Nat → Nat → Nat → String
  | 0, _, _ => ""
  | _ + 1, 0, _ => ""
  | fuel + 1, num, den =>
    let num10 := num * 10
    String.singleton (Char.ofNat (48 + num10 / den)) ++ fracDigitsAux fuel (num10 % den) den

/-- Model of JavaScript number-to-string conversion (used by string
coercion and by JSON.stringify) for the finite decimal values arising
here: sign, integer part, and the fractional digits without trailing
zeros.  Exponential notation (magnitudes beyond 1e21 or below 1e-7) does
not arise from the inputs considered. -/
def jsNumToString (q : Rat) : String :=
  if q = 0 then "0"
  else
    let sgn := if q < 0 then "-" else ""
    let aq := if q < 0 then -q else q
    let ip := aq.num.natAbs / aq.den
    let frNum := aq.num.natAbs % aq.den
    sgn ++ toString ip ++
      (if frNum = 0 then "" else "." ++ fracDigitsAux 64 frNum aq.den)

/-- String coercion of a JavaScript value, as performed by parseFloat on a
non-string argument. -/
def jsValToString : JsVal → String
  | JsVal.str s => s
  | JsVal.num none => "NaN"
  | JsVal.num (some q) => jsNumToString q
  | JsVal.undef => "undefined"

/-- The call parseFloat(v) from the source: coerce the argument to a
string and parse it; the result is a JavaScript number, NaN when the
parse fails. -/
def parseFloatJs (v : JsVal) : Option Rat :=
  parseFloatStr (jsValToString v)

/-- Concatenate strings with a separator between them (the behaviour of
the join used by JSON.stringify for object members). -/
def joinSep (sep : String) : List String → String
  | [] => ""
  | [x] => x
  | x :: xs => x ++ sep ++ joinSep sep xs

/-- JSON string escaping for the characters that can occur in the values
considered (quote, backslash, newline, tab, carriage return); other
characters are emitted verbatim. -/
def jsonEscapeChar (c : Char) : String :=
  if c = '"' then "\\\""
  else if c = '\\' then "\\\\"
  else if c = '\n' then "\\n"
  else if c = '\t' then "\\t"
  else if c = '\r' then "\\r"
  else String.singleton c

/-- A JSON string literal: quotes around the escaped characters. -/
def jsonQuote (s : String) : String :=
  "\"" ++ joinSep "" (s.data.map jsonEscapeChar) ++ "\""

/-- One member of a JSON.stringify object: a key whose value is undefined
is omitted (`none`); NaN serializes as null; numbers and strings as
usual. -/
def jsonMember : String × JsVal → Option String
  | (_, JsVal.undef) => none
  | (k, JsVal.str s) => some (jsonQuote k ++ ":" ++ jsonQuote s)
  | (k, JsVal.num none) => some (jsonQuote k ++ ":null")
  | (k, JsVal.num (some q)) => some (jsonQuote k ++ ":" ++ jsNumToString q)

/-- JSON.stringify of a flat object literal, keys in insertion order. -/
def jsonStringifyObj (fields : List (String × JsVal)) : String :=
  "\x7b" ++ joinSep "," (fields.filterMap jsonMember) ++ "\x7d"

/-- The base64 alphabet used by btoa. -/
def b64Alphabet : List Char :=
  "ABCDEFGHIJKLMNOPQRSTUVWXYZabcdefghijklmnopqrstuvwxyz0123456789+/".data

/-- The base64 digit for a 6-bit value. -/
def b64Char (n : Nat) : Char := b64Alphabet.getD n 'A'

/-- Base64 encoding of a byte sequence, three bytes to four digits, with
the usual padding of the final group. -/
def b64Encode : List Nat → String
  | [] => ""
  | [a] =>
    String.mk [b64Char (a / 4), b64Char (a % 4 * 16)] ++ "=="
  | [a, b] =>
    String.mk [b64Char (a / 4), b64Char (a % 4 * 16 + b / 16), b64Char (b % 16 * 4)] ++ "="
  | a :: b :: c :: rest =>
    String.mk [b64Char (a / 4), b64Char (a % 4 * 16 + b / 16),
               b64Char (b % 16 * 4 + c / 64), b64Char (c % 64)] ++ b64Encode rest

/-- The browser builtin btoa: base64 of the string's character codes (all
strings arising here are ASCII, where btoa is defined). -/
def btoa (s : String) : String :=
  b64Encode (s.data.map Char.toNat)

/-- A transaction object as consumed by createTransactionHash: the
canonical fields.  The call site in the upload route (server.js line 164)
builds an object carrying only date, merchant, amount and account, so
reading status or costCenter on it yields undefined. -/
structure Transaction where
  date : JsVal
  merchant : JsVal
  amount : JsVal
  account : JsVal
  status : JsVal
  costCenter : JsVal
deriving DecidableEq, Repr

/-- The helper createTransactionHash (server.js lines 24-31):
btoa(JSON.stringify(...)) of an object holding the transaction's date,
merchant, amount and account, in that key order. -/
def createTransactionHash (transaction : Transaction) : String :=
  btoa (jsonStringifyObj
    [("date", transaction.date),
     ("merchant", transaction.merchant),
     ("amount", transaction.amount),
     ("account", transaction.account)])

/-- Whether the year is a leap year of the Gregorian calendar. -/
def isLeapYear (y : Nat) : Bool :=
  (y % 4 = 0 && y % 100 ≠ 0) || y % 400 = 0

/-- Days in a month of the given year. -/
def daysInMonth (y m : Nat) : Nat :=
  if m = 2 then (if isLeapYear y then 29 else 28)
  else if m = 4 || m = 6 || m = 9 || m = 11 then 30
  else 31

/-- Whether year/month/day denotes a real calendar date. -/
def validYmd (y m d : Nat) : Bool :=
  1 ≤ m && m ≤ 12 && 1 ≤ d && d ≤ daysInMonth y m

/-- Split a character list at every occurrence of the separator. -/
def splitOnCharAux (sep : Char) : List Char → List Char → List (List Char)
  | [], acc => [acc.reverse]
  | c :: cs, acc =>
    if c = sep then acc.reverse :: splitOnCharAux sep cs []
    else splitOnCharAux sep cs (c :: acc)

/-- Split a string at every occurrence of the separator character. -/
def splitOnChar (sep : Char) (s : String) : List (List Char) :=
  splitOnCharAux sep s.data []

/-- Whether the character list is a nonempty run of decimal digits. -/
def allDigits (cs : List Char) : Bool :=
  !cs.isEmpty && cs.all Char.isDigit

/-- Parse a strict ISO calendar date YYYY-MM-DD (the format the Date
constructor interprets as UTC midnight). -/
def parseIsoDateStr (s : String) : Option (Nat × Nat × Nat) :=
  match splitOnChar '-' s with
  | [ys, ms, ds] =>
    if allDigits ys && ys.length = 4 && allDigits ms && ms.length = 2 &&
       allDigits ds && ds.length = 2 &&
       validYmd (digitsToNat ys) (digitsToNat ms) (digitsToNat ds)
    then some (digitsToNat ys, digitsToNat ms, digitsToNat ds)
    else none
  | _ => none

/-- Parse a US slash date M/D/YYYY (one or two digit month and day), the
legacy format the Date constructor interprets as local midnight. -/
def parseSlashDateStr (s : String) : Option (Nat × Nat × Nat) :=
  match splitOnChar '/' s with
  | [ms, ds, ys] =>
    if allDigits ms && ms.length ≤ 2 && allDigits ds && ds.length ≤ 2 &&
       allDigits ys && ys.length = 4 &&
       validYmd (digitsToNat ys) (digitsToNat ms) (digitsToNat ds)
    then some (digitsToNat ys, digitsToNat ms, digitsToNat ds)
    else none
  | _ => none

/-- Left-pad a numeral to two digits. -/
def pad2 (n : Nat) : String :=
  if n < 10 then "0" ++ toString n else toString n

/-- Render a calendar date in ISO YYYY-MM-DD form (years here are four
digits). -/
def ymdToIso (y m d : Nat) : String :=
  toString y ++ "-" ++ pad2 m ++ "-" ++ pad2 d

/-- Model of new Date(raw).toISOString().split(T-separator)[0] from
server.js line 158, under a server environment in the UTC timezone: the
strict ISO format and the US slash format both normalize to the ISO
calendar date; any other value yields an Invalid Date, on which
toISOString throws a RangeError (`none`), aborting the whole upload.
Numeric date values (epoch milliseconds) do not arise from the inputs
considered and are treated as unparseable. -/
def jsToIsoDate : JsVal → Option String
  | JsVal.str s =>
    match parseIsoDateStr s with
    | some (y, m, d) => some (ymdToIso y m d)
    | none =>
      match parseSlashDateStr s with
      | some (y, m, d) => some (ymdToIso y m d)
      | none => none
  | _ => none

/-- A parsed CSV row as delivered by PapaParse with header mode and
dynamicTyping: the columns the upload route reads.  A column absent from
the file gives `undef`; dynamicTyping turns purely numeric cell text into
numbers and leaves other cell text as strings. -/
structure Row where
  Date : JsVal
  Description : JsVal
  Merchant : JsVal
  Amount : JsVal
  Debit : JsVal
  Account : JsVal
deriving DecidableEq, Repr

/-- The object literal built for each row in normalizedData (server.js
lines 157-169): canonical date string, merchant and account by
truthiness, the parsed amount (NaN as `none`), the constant initial
status, and the identity hash.  The literal carries no costCenter key,
so its costCenter is undefined. -/
structure NormTx where
  date : String
  merchant : JsVal
  amount : Option Rat
  account : JsVal
  costCenter : JsVal
  status : String
  hash : String
deriving DecidableEq, Repr

/-- One step of the normalizedData map (server.js lines 157-169).  The
result is `none` exactly when toISOString throws on the row's date, which
escapes the map and fails the whole request.  Note that the hash is
computed from the raw row.Date, not from the normalized date. -/
def normalizeRow (row : Row) : Option NormTx :=
  match jsToIsoDate row.Date with
  | none => none
  | some d =>
    let merchant := jsOr row.Description row.Merchant
    let amount := parseFloatJs (jsOr row.Amount row.Debit)
    let account := jsOr row.Account (JsVal.str "Default")
    some ⟨d, merchant, amount, account, JsVal.undef, "Review Required",
      createTransactionHash
        ⟨row.Date, merchant, JsVal.num amount, account, JsVal.undef, JsVal.undef⟩⟩

/-- The normalizedData pipeline stage (server.js lines 157-170): map each
row through normalizeRow (a thrown date error fails everything), then
drop the rows whose amount is NaN. -/
def normalizedData (rows : List Row) : Option (List NormTx) :=
  (rows.mapM normalizeRow).map (fun l => l.filter (fun t => t.amount.isSome))

/-- The dedup stage (server.js lines 172-178): the server fetches the
stored hashes occurring in the batch and keeps the rows whose hash is not
among them.  Restricting the storage hash set to the batch's hashes does
not change the membership test, so the model takes the storage hash list
directly. -/
def newTransactions (storageHashes : List String) (nd : List NormTx) : List NormTx :=
  nd.filter (fun t => !(storageHashes.contains t.hash))

/-- An HTTP response of the upload route: status code and message body. -/
structure UploadResponse where
  status : Nat
  message : String
deriving DecidableEq, Repr

/-- The upload route body after CSV parsing (server.js lines 156-195):
normalize, filter against storage, bulk-insert the new set when nonempty
(insertOk says whether that single insert succeeds), and answer 200 with
the new-transaction count, or 500 when a date error was thrown
(RangeError message of toISOString) or the insert failed. -/
def processUpload (rows : List Row) (storageHashes : List String) (insertOk : Bool) :
    UploadResponse :=
  match normalizedData rows with
  | none => ⟨500, "File upload failed: Invalid time value"⟩
  | some nd =>
    let newTs := newTransactions storageHashes nd
    if 0 < newTs.length && !insertOk then
      ⟨500, "File upload failed: Database insertion failed."⟩
    else
      ⟨200, toString newTs.length ++ " new transactions processed and saved successfully."⟩

/-- The PATCH transactions route (server.js lines 78-93): the stored
record is updated to the request's costCenter together with a status
recomputed by truthiness of that costCenter. -/
def patchTransaction (costCenter : JsVal) : JsVal × String :=
  (costCenter, if jsTruthy costCenter then "Processed" else "Review Required")

/-! Sample data used by the concrete theorems: the spec's example rows and
their normalized forms (hashes computed by the model, matching what the
server computes). -/

/-- The spec's example row with an ISO date, as delivered by PapaParse
with dynamicTyping (the Amount cell text -4.50 becomes the number
-4.5). -/
def isoRow : Row :=
  ⟨JsVal.str "2024-01-05", JsVal.str "Coffee Shop", JsVal.undef,
   JsVal.num (some (mkRat (-9) 2)), JsVal.undef, JsVal.str "Checking"⟩

/-- The spec's example row denoting the same transaction with a US slash
date. -/
def slashRow : Row :=
  ⟨JsVal.str "01/05/2024", JsVal.str "Coffee Shop", JsVal.undef,
   JsVal.num (some (mkRat (-9) 2)), JsVal.undef, JsVal.str "Checking"⟩

/-- A row whose date cell cannot be parsed by the Date constructor. -/
def badDateRow : Row :=
  ⟨JsVal.str "not-a-date", JsVal.str "Groceries", JsVal.undef,
   JsVal.num (some (mkRat 25 2)), JsVal.undef, JsVal.str "Checking"⟩

/-- A row whose amount cell is not numeric. -/
def badAmountRow : Row :=
  ⟨JsVal.str "2024-02-01", JsVal.str "Mystery", JsVal.undef,
   JsVal.str "abc", JsVal.undef, JsVal.str "Checking"⟩

/-- A row whose merchant columns are blank (empty Description, no
Merchant column). -/
def blankMerchantRow : Row :=
  ⟨JsVal.str "2024-01-05", JsVal.str "", JsVal.undef,
   JsVal.num (some (mkRat 10 1)), JsVal.undef, JsVal.str "Checking"⟩

/-- A row with a genuine zero Amount and no Debit column. -/
def zeroAmountRow : Row :=
  ⟨JsVal.str "2024-03-01", JsVal.str "Refund", JsVal.undef,
   JsVal.num (some 0), JsVal.undef, JsVal.str "Checking"⟩

/-- The ISO example row without an Account column. -/
def noAccountRow : Row :=
  ⟨JsVal.str "2024-01-05", JsVal.str "Coffee Shop", JsVal.undef,
   JsVal.num (some (mkRat (-9) 2)), JsVal.undef, JsVal.undef⟩

/-- The normalized record the pipeline produces for isoRow. -/
def isoNorm : NormTx :=
  ⟨"2024-01-05", JsVal.str "Coffee Shop", some (mkRat (-9) 2),
   JsVal.str "Checking", JsVal.undef, "Review Required",
   "eyJkYXRlIjoiMjAyNC0wMS0wNSIsIm1lcmNoYW50IjoiQ29mZmVlIFNob3AiLCJhbW91bnQiOi00LjUsImFjY291bnQiOiJDaGVja2luZyJ9"⟩

/-- The normalized record the pipeline produces for zeroAmountRow before
the NaN filter drops it. -/
def zeroNorm : NormTx :=
  ⟨"2024-03-01", JsVal.str "Refund", none,
   JsVal.str "Checking", JsVal.undef, "Review Required",
   "eyJkYXRlIjoiMjAyNC0wMy0wMSIsIm1lcmNoYW50IjoiUmVmdW5kIiwiYW1vdW50IjpudWxsLCJhY2NvdW50IjoiQ2hlY2tpbmcifQ=="⟩

/-- Helper: a single row whose toISOString throws makes the whole mapM
fail, which is how the thrown RangeError escapes the map in the source. -/
theorem mapM_normalizeRow_eq_none (rows : List Row)
    (h : ∃ r ∈ rows, normalizeRow r = none) : rows.mapM normalizeRow = none := by
  induction rows with
  | nil => rcases h with ⟨r, hr, _⟩; cases hr
  | cons a as ih =>
    rcases h with ⟨r, hr, hn⟩
    rw [List.mapM_cons]
    rcases List.mem_cons.mp hr with rfl | hmem
    · rw [hn]; rfl
    · cases hA : normalizeRow a with
      | none => rfl
      | some t => rw [ih ⟨r, hmem, hn⟩]; rfl

/-- C1 counterexample: the two date formats of the spec's example do NOT
collapse to one identity.  The hash is computed from the raw Date string
(server.js line 165), so the two rows get different identity hashes and
the upload reports two new transactions, not newCount 1 / duplicateCount
1. -/
theorem two_date_formats_not_collapsed :
    (normalizeRow isoRow).map NormTx.hash ≠ (normalizeRow slashRow).map NormTx.hash ∧
    processUpload [isoRow, slashRow] [] true =
      ⟨200, "2 new transactions processed and saved successfully."⟩ := by
  constructor
  · decide
  · decide

/-- C1 amended: normalization does map both date formats to the same
canonical calendar date, but the identity hash is computed from the raw
Date string, so the two rows receive different identity hashes and
ingesting them together yields two new transactions and no duplicate. -/
theorem two_date_formats_same_canonical_date_but_different_hash :
    jsToIsoDate isoRow.Date = some "2024-01-05" ∧
    jsToIsoDate slashRow.Date = some "2024-01-05" ∧
    (normalizeRow isoRow).map NormTx.hash ≠ (normalizeRow slashRow).map NormTx.hash ∧
    processUpload [isoRow, slashRow] [] true =
      ⟨200, "2 new transactions processed and saved successfully."⟩ := by
  refine ⟨by decide, by decide, by decide, by decide⟩

/-- C2 counterexample: two byte-identical rows in one batch, with storage
empty, are BOTH classified as new: the upload reports two new
transactions and both copies reach the insert set, contradicting
intra-batch dedup with newCount 1 / duplicateCount 1. -/
theorem identical_rows_in_one_batch_both_inserted :
    processUpload [isoRow, isoRow] [] true =
      ⟨200, "2 new transactions processed and saved successfully."⟩ ∧
    (newTransactions [] ((normalizedData [isoRow, isoRow]).getD [])).length = 2 := by
  constructor
  · decide
  · decide

/-- C2 amended: deduplication is only against the stored hash set
(server.js line 178): a record whose hash is absent from storage keeps
every one of its occurrences in the batch (no intra-batch dedup), and a
record whose hash is present in storage is dropped entirely. -/
theorem dedup_only_against_storage (storage : List String) (nd : List NormTx) (t : NormTx) :
    (storage.contains t.hash = false →
      (newTransactions storage nd).count t = nd.count t) ∧
    (storage.contains t.hash = true →
      (newTransactions storage nd).count t = 0) := by
  constructor
  · intro h
    unfold newTransactions
    exact List.count_filter (by simp only [h, Bool.not_false])
  · intro h
    unfold newTransactions
    refine List.count_eq_zero.mpr ?_
    intro hmem
    have hp : (!storage.contains t.hash) = true := (List.mem_filter.mp hmem).2
    rw [h] at hp
    simp at hp

/-- C2 witness: both parts of the dedup theorem at concrete inputs: with
the hash absent from storage both copies are counted; with the hash in
storage the record is dropped. -/
theorem dedup_only_against_storage_witness :
    (["x"].contains isoNorm.hash = false ∧
      (newTransactions ["x"] [isoNorm, isoNorm]).count isoNorm =
        ([isoNorm, isoNorm] : List NormTx).count isoNorm) ∧
    ([isoNorm.hash].contains isoNorm.hash = true ∧
      (newTransactions [isoNorm.hash] [isoNorm]).count isoNorm = 0) := by
  refine ⟨⟨by decide, ?_⟩, ⟨by decide, ?_⟩⟩
  · exact (dedup_only_against_storage ["x"] [isoNorm, isoNorm] isoNorm).1 (by decide)
  · exact (dedup_only_against_storage [isoNorm.hash] [isoNorm] isoNorm).2 (by decide)

/-- C3 counterexample: a single unparseable date fails the WHOLE upload
with a 500 response (toISOString throws and the error is caught at batch
level); the valid row in the same batch is not processed and there is no
per-row rejection. -/
theorem bad_date_fails_whole_upload :
    jsToIsoDate badDateRow.Date = none ∧
    processUpload [isoRow, badDateRow] [] true =
      ⟨500, "File upload failed: Invalid time value"⟩ := by
  constructor
  · decide
  · decide

/-- C3 amended: any batch containing a row with an unparseable date fails
as a whole: the thrown RangeError aborts normalization and the route
answers 500, regardless of the other rows, the storage contents, or the
insert outcome; no row-level InvalidDate rejection exists. -/
theorem bad_date_aborts_batch (rows : List Row) (storage : List String) (insertOk : Bool)
    (r : Row) (hr : r ∈ rows) (hd : jsToIsoDate r.Date = none) :
    processUpload rows storage insertOk =
      ⟨500, "File upload failed: Invalid time value"⟩ := by
  have h1 : normalizeRow r = none := by
    unfold normalizeRow
    rw [hd]
  have h2 : rows.mapM normalizeRow = none :=
    mapM_normalizeRow_eq_none rows ⟨r, hr, h1⟩
  unfold processUpload normalizedData
  rw [h2]
  rfl

/-- C3 witness: the amended theorem applied to a concrete two-row batch
with the bad-date row first. -/
theorem bad_date_aborts_batch_witness :
    badDateRow ∈ [badDateRow, isoRow] ∧
    processUpload [badDateRow, isoRow] ["h1"] false =
      ⟨500, "File upload failed: Invalid time value"⟩ := by
  refine ⟨by decide, ?_⟩
  exact bad_date_aborts_batch [badDateRow, isoRow] ["h1"] false badDateRow (by decide) (by decide)

/-- C4 counterexample: a thousands separator is not supported — parseFloat
stops at the comma, so the cell 1,234.56 parses to 1, not 1234.56 — and a
row whose amount fails to parse is silently filtered out of the batch
(the upload succeeds reporting zero new transactions), not rejected with
a recorded InvalidAmount reason. -/
theorem thousands_separator_and_bad_amount_behavior :
    parseFloatJs (JsVal.str "1,234.56") = some 1 ∧
    (some (1 : Rat) : Option Rat) ≠ some (mkRat 123456 100) ∧
    processUpload [badAmountRow] [] true =
      ⟨200, "0 new transactions processed and saved successfully."⟩ := by
  refine ⟨by decide, by decide, by decide⟩

/-- C4 amended: the amount is parsed with parseFloat, which has no
thousands-separator support (1,234.56 yields 1); a row whose amount is
NaN is silently dropped by the filter on the normalized data — every
record surviving normalization has a parsed (non-NaN) amount and no
rejection is recorded anywhere. -/
theorem amount_rows_with_nan_silently_dropped :
    parseFloatJs (JsVal.str "1,234.56") = some 1 ∧
    ∀ (rows : List Row) (t : NormTx), t ∈ (normalizedData rows).getD [] →
      t.amount.isSome = true := by
  refine ⟨by decide, ?_⟩
  intro rows t ht
  unfold normalizedData at ht
  cases h : rows.mapM normalizeRow with
  | none => rw [h] at ht; cases ht
  | some l =>
    rw [h] at ht
    have ht2 : t ∈ List.filter (fun t => t.amount.isSome) l := by simpa using ht
    exact (List.mem_filter.mp ht2).2

/-- C4 witness: the amended theorem applied to the concrete normalized
record of the valid example row. -/
theorem amount_rows_with_nan_silently_dropped_witness :
    isoNorm ∈ (normalizedData [isoRow]).getD [] ∧ isoNorm.amount.isSome = true := by
  refine ⟨by decide, ?_⟩
  exact amount_rows_with_nan_silently_dropped.2 [isoRow] isoNorm (by decide)

/-- C5 counterexample: a batch of one blank-merchant row and one valid row
yields TWO new transactions and no rejection: the blank merchant is kept
(as the undefined value selected by the truthiness alias chain), so
rejectedRows length 1 / newCount 1 does not hold. -/
theorem blank_merchant_not_rejected :
    (normalizeRow blankMerchantRow).map NormTx.merchant = some JsVal.undef ∧
    processUpload [blankMerchantRow, isoRow] [] true =
      ⟨200, "2 new transactions processed and saved successfully."⟩ := by
  refine ⟨by decide, by decide⟩

/-- C5 amended: no merchant validation exists — normalization succeeds on
every row whose date parses, whatever the merchant columns hold, and a
blank merchant row is ingested like any other (its merchant being the
falsy alias-chain result). -/
theorem merchant_never_causes_rejection :
    (∀ row : Row, (jsToIsoDate row.Date).isSome = true → (normalizeRow row).isSome = true) ∧
    (normalizeRow blankMerchantRow).map NormTx.merchant = some JsVal.undef := by
  refine ⟨?_, by decide⟩
  intro row h
  unfold normalizeRow
  cases hD : jsToIsoDate row.Date with
  | none => rw [hD] at h; cases h
  | some d => simp

/-- C5 witness: the amended theorem applied to the blank-merchant row. -/
theorem merchant_never_causes_rejection_witness :
    (jsToIsoDate blankMerchantRow.Date).isSome = true ∧
    (normalizeRow blankMerchantRow).isSome = true := by
  refine ⟨by decide, ?_⟩
  exact merchant_never_causes_rejection.1 blankMerchantRow (by decide)

/-- C6: if the single bulk insert fails on a batch with a nonempty new
set, the whole upload is reported failed with one fatal 500 response
whose body carries no count — no partial success is reported and the
route performs no retry (the insert is submitted exactly once). -/
theorem insert_failure_reported_fatal (rows : List Row) (storage : List String)
    (nd : List NormTx) (h : normalizedData rows = some nd)
    (hne : newTransactions storage nd ≠ []) :
    processUpload rows storage false =
      ⟨500, "File upload failed: Database insertion failed."⟩ := by
  unfold processUpload
  rw [h]
  have hlen : (0 < (newTransactions storage nd).length && !false) = true := by
    simp [List.length_pos, hne]
  simp only [hlen, if_pos]

/-- C6 witness: the insert-failure theorem at a concrete one-row batch
whose new set is nonempty. -/
theorem insert_failure_reported_fatal_witness :
    normalizedData [isoRow] = some [isoNorm] ∧
    newTransactions [] [isoNorm] ≠ [] ∧
    processUpload [isoRow] [] false =
      ⟨500, "File upload failed: Database insertion failed."⟩ := by
  refine ⟨by decide, by decide, ?_⟩
  exact insert_failure_reported_fatal [isoRow] [] [isoNorm] (by decide) (by decide)

/-- C7: status is derived from costCenter — every record built at
ingestion carries status Review Required and no costCenter (the
undefined/empty value), and the PATCH route recomputes the stored status
from the new costCenter: Processed for a non-empty string, Review
Required for the empty one. -/
theorem status_derived_from_costCenter :
    (∀ (row : Row) (t : NormTx), normalizeRow row = some t →
      t.status = "Review Required" ∧ t.costCenter = JsVal.undef) ∧
    (∀ s : String, (patchTransaction (JsVal.str s)).2 =
      if s = "" then "Review Required" else "Processed") := by
  constructor
  · intro row t h
    unfold normalizeRow at h
    cases hD : jsToIsoDate row.Date with
    | none => rw [hD] at h; cases h
    | some d =>
      rw [hD] at h
      cases h
      exact ⟨rfl, rfl⟩
  · intro s
    unfold patchTransaction jsTruthy
    by_cases hs : s = "" <;> simp [hs]

/-- C7 witness: the derivation theorem at the concrete example row and at
two concrete costCenter strings. -/
theorem status_derived_from_costCenter_witness :
    (isoNorm.status = "Review Required" ∧ isoNorm.costCenter = JsVal.undef) ∧
    (patchTransaction (JsVal.str "Operations")).2 =
      (if "Operations" = "" then "Review Required" else "Processed") := by
  refine ⟨?_, ?_⟩
  · exact status_derived_from_costCenter.1 isoRow isoNorm (by decide)
  · exact status_derived_from_costCenter.2 "Operations"

/-- C8: a row without an Account column is normalized with account set to
the fallback label Default and is not rejected for the missing
account. -/
theorem missing_account_defaults (row : Row) (d : String)
    (hA : row.Account = JsVal.undef) (hD : jsToIsoDate row.Date = some d) :
    (normalizeRow row).isSome = true ∧
    (normalizeRow row).map NormTx.account = some (JsVal.str "Default") := by
  simp [normalizeRow, hD, hA, jsOr, jsTruthy]

/-- C8 witness: the default-account theorem at the concrete example row
without an Account column. -/
theorem missing_account_defaults_witness :
    noAccountRow.Account = JsVal.undef ∧
    (normalizeRow noAccountRow).isSome = true ∧
    (normalizeRow noAccountRow).map NormTx.account = some (JsVal.str "Default") := by
  refine ⟨by decide, ?_, ?_⟩
  · exact (missing_account_defaults noAccountRow "2024-01-05" rfl (by decide)).1
  · exact (missing_account_defaults noAccountRow "2024-01-05" rfl (by decide)).2

/-- C9: createTransactionHash is a pure deterministic function of the four
identity fields date, merchant, amount and account — two records equal on
those four fields hash identically, whatever their status or costCenter
hold and independently of any processing order or time. -/
theorem hash_pure_function_of_four_fields (t1 t2 : Transaction)
    (h1 : t1.date = t2.date) (h2 : t1.merchant = t2.merchant)
    (h3 : t1.amount = t2.amount) (h4 : t1.account = t2.account) :
    createTransactionHash t1 = createTransactionHash t2 := by
  unfold createTransactionHash
  rw [h1, h2, h3, h4]

/-- C9 witness: two records equal on the four identity fields but
differing in status and costCenter hash identically. -/
theorem hash_pure_function_of_four_fields_witness :
    createTransactionHash
      ⟨JsVal.str "2024-01-05", JsVal.str "Coffee Shop",
       JsVal.num (some (mkRat (-9) 2)), JsVal.str "Checking",
       JsVal.str "Processed", JsVal.str "Travel"⟩ =
    createTransactionHash
      ⟨JsVal.str "2024-01-05", JsVal.str "Coffee Shop",
       JsVal.num (some (mkRat (-9) 2)), JsVal.str "Checking",
       JsVal.undef, JsVal.undef⟩ :=
  hash_pure_function_of_four_fields _ _ rfl rfl rfl rfl

/-- C10: amount alias selection is by truthiness — whenever the Amount
value is falsy (absent, empty string, 0 or NaN) the amount is computed
from the Debit field; parseFloat of an absent Debit is NaN, so a row with
a genuine zero Amount and no Debit column normalizes to a NaN amount and
is silently excluded from the batch (the upload succeeds reporting zero
new transactions). -/
theorem amount_alias_truthiness :
    (∀ (row : Row) (t : NormTx), jsTruthy row.Amount = false →
      normalizeRow row = some t → t.amount = parseFloatJs row.Debit) ∧
    parseFloatJs JsVal.undef = none ∧
    normalizedData [zeroAmountRow] = some [] ∧
    processUpload [zeroAmountRow] [] true =
      ⟨200, "0 new transactions processed and saved successfully."⟩ := by
  refine ⟨?_, by decide, by decide, by decide⟩
  intro row t hA h
  unfold normalizeRow at h
  cases hD : jsToIsoDate row.Date with
  | none => rw [hD] at h; cases h
  | some d =>
    rw [hD] at h
    cases h
    show parseFloatJs (jsOr row.Amount row.Debit) = parseFloatJs row.Debit
    unfold jsOr
    rw [hA]
    rfl

/-- C10 witness: the truthiness theorem at the concrete zero-amount row,
whose normalized amount is the NaN obtained from the missing Debit
column. -/
theorem amount_alias_truthiness_witness :
    jsTruthy zeroAmountRow.Amount = false ∧
    zeroNorm.amount = parseFloatJs zeroAmountRow.Debit := by
  refine ⟨by decide, ?_⟩
  exact amount_alias_truthiness.1 zeroAmountRow zeroNorm (by decide) (by decide)
